import Mathlib

/-!
Shallow embedding of the astronomical core of the `star-observer` repository
(`src/astronomy/AstronomicalCalculator.js` and the sidereal-time part of
`src/renderer/StarMapRenderer.js`).

Conventions of the embedding:
* JavaScript numbers are idealized: computations that only use `+ - * / %`
  are embedded over `ℚ` (exact), computations involving `Math.sin`, `Math.cos`,
  `Math.atan2`, `Math.asin`, `Math.sqrt`, `Math.log10` are embedded over `ℝ`.
* The JavaScript remainder operator `%` truncates toward zero and takes the
  sign of the dividend; it is embedded as `jsRem`.
* `Math.atan2 y x` is `Complex.arg (x + y * I)` (range `(-π, π]`).
* An instant (a JS `Date`) is embedded as its `getTime()` value in
  milliseconds since the Unix epoch, as a rational number.
* The unbounded `while` loop of `solveKeplerEquation` is embedded with an
  explicit fuel parameter; `none` means the loop was still running after
  `fuel` iterations.  The source loop has no iteration cap of its own.
-/

namespace StarObserver

/-- Truncation toward zero on `ℚ`, as used by the JavaScript `%` operator. -/
def jsTrunc (q : ℚ) : ℤ := if 0 ≤ q then ⌊q⌋ else ⌈q⌉

/-- The JavaScript remainder `a % n`: `a - n * trunc (a / n)`. -/
def jsRem (a n : ℚ) : ℚ := a - n * (jsTrunc (a / n) : ℚ)

/-- Orbital element record, one per planet (source: `this.planetData`). -/
structure PlanetData where
  name : String
  color : String
  semiMajorAxis : ℚ
  eccentricity : ℚ
  inclination : ℚ
  longitudeOfAscendingNode : ℚ
  argumentOfPeriapsis : ℚ
  meanAnomalyAtEpoch : ℚ
  meanDailyMotion : ℚ

/-- `this.planetData.mercury`. -/
def mercury : PlanetData :=
  ⟨"水星", "#8C7853", 0.387, 0.206, 7.0, 48.3, 77.5, 174.8, 4.0923⟩

/-- `this.planetData.venus`. -/
def venus : PlanetData :=
  ⟨"金星", "#FFC649", 0.723, 0.007, 3.4, 76.7, 131.6, 50.1, 1.6022⟩

/-- `this.planetData.mars`. -/
def mars : PlanetData :=
  ⟨"火星", "#CD5C5C", 1.524, 0.093, 1.9, 49.6, 336.1, 19.4, 0.5240⟩

/-- `this.planetData.jupiter`. -/
def jupiter : PlanetData :=
  ⟨"木星", "#D8CA9D", 5.203, 0.049, 1.3, 100.5, 14.8, 20.0, 0.0831⟩

/-- `this.planetData.saturn`. -/
def saturn : PlanetData :=
  ⟨"土星", "#FAD5A5", 9.537, 0.057, 2.5, 113.7, 93.0, 317.0, 0.0334⟩

/-- `getTime()` of `new Date('2000-01-01T12:00:00Z')`, in milliseconds. -/
def epochMillis : ℚ := 946728000000

/-- Days from the J2000.0 epoch to the instant `t` (milliseconds):
`(date.getTime() - this.epochDate.getTime()) / (1000*60*60*24)`. -/
def daysSinceEpoch (t : ℚ) : ℚ := (t - epochMillis) / 86400000

/-- The mean anomaly computed inside `calculatePlanetPosition`:
`(planetData.meanAnomalyAtEpoch + planetData.meanDailyMotion * daysSinceEpoch) % 360`. -/
def meanAnomaly (p : PlanetData) (t : ℚ) : ℚ :=
  jsRem (p.meanAnomalyAtEpoch + p.meanDailyMotion * daysSinceEpoch t) 360

/-- The Earth mean anomaly computed inside `calculateEarthPosition`:
`(100.0 + 0.9856 * daysSinceEpoch) % 360`. -/
def earthMeanAnomaly (t : ℚ) : ℚ :=
  jsRem (100 + 0.9856 * daysSinceEpoch t) 360

/-! ## Sidereal time (`StarMapRenderer.js`) -/

/-- `toJulianDate`: `date.getTime() / 86400000 + 2440587.5`. -/
def toJulianDate (t : ℚ) : ℚ := t / 86400000 + 2440587.5

/-- The JavaScript normalization idiom `((x % 360) + 360) % 360`. -/
def normalize360 (x : ℚ) : ℚ := jsRem (jsRem x 360 + 360) 360

/-- The un-normalized GMST polynomial of `computeLocalSiderealTimeRadians`:
`280.46061837 + 360.98564736629*(jd-2451545) + 0.000387933*T*T - T*T*T/38710000`
with `jd = toJulianDate date` and `T = (jd - 2451545)/36525`. -/
def gmstRaw (t : ℚ) : ℚ :=
  let jd := toJulianDate t
  let T := (jd - 2451545.0) / 36525.0
  280.46061837 + 360.98564736629 * (jd - 2451545.0) + 0.000387933 * T * T
    - T * T * T / 38710000.0

/-- `GMST = ((GMST % 360) + 360) % 360` applied to the raw polynomial. -/
def gmstDegrees (t : ℚ) : ℚ := normalize360 (gmstRaw t)

/-- `LST = ((GMST + longitudeDeg) % 360 + 360) % 360`, in degrees. -/
def lstDegrees (t lon : ℚ) : ℚ := normalize360 (gmstDegrees t + lon)

/-! ## Constellation lookup -/

/-- One row of the `constellationBounds` table. -/
structure ConstellationBound where
  name : String
  raStart : ℚ
  raEnd : ℚ
  decMin : ℚ
  decMax : ℚ

/-- The 12-row `constellationBounds` table of `getConstellationFromCoords`. -/
def constellationBounds : List ConstellationBound :=
  [⟨"双鱼座", 0, 2, -5, 25⟩,
   ⟨"白羊座", 2, 4, 0, 30⟩,
   ⟨"金牛座", 4, 7, 5, 35⟩,
   ⟨"双子座", 7, 9, 10, 35⟩,
   ⟨"巨蟹座", 9, 10, 5, 35⟩,
   ⟨"狮子座", 10, 12, 0, 30⟩,
   ⟨"处女座", 12, 15, -15, 15⟩,
   ⟨"天秤座", 15, 16, -25, 0⟩,
   ⟨"天蝎座", 16, 18, -45, -5⟩,
   ⟨"射手座", 18, 20, -45, -15⟩,
   ⟨"摩羯座", 20, 22, -25, -5⟩,
   ⟨"水瓶座", 22, 24, -25, 5⟩]

/-- The RA test of the lookup loop: interval test when `raStart <= raEnd`,
wrap-around test otherwise. -/
def inRABox (b : ConstellationBound) (raHours : ℚ) : Bool :=
  if b.raStart ≤ b.raEnd then
    decide (b.raStart ≤ raHours) && decide (raHours ≤ b.raEnd)
  else
    decide (b.raStart ≤ raHours) || decide (raHours ≤ b.raEnd)

/-- The full per-row test `inRA && decDeg >= decMin && decDeg <= decMax`. -/
def boxContains (b : ConstellationBound) (raHours decDeg : ℚ) : Bool :=
  inRABox b raHours && decide (b.decMin ≤ decDeg) && decide (decDeg ≤ b.decMax)

/-- `getConstellationFromCoords`: first matching row's name, else the
unknown-constellation sentinel. -/
def getConstellationFromCoords (ra dec : ℚ) : String :=
  match constellationBounds.find? (fun b => boxContains b ra dec) with
  | some b => b.name
  | none => "未知星座"

/-! ## Apparent magnitude -/

/-- The `baseMagnitudes` table of `calculateApparentMagnitude`, keyed by the
English planet identifiers. -/
def baseMagnitudes : List (String × ℚ) :=
  [("mercury", -0.6), ("venus", -4.4), ("mars", -2.9),
   ("jupiter", -2.9), ("saturn", -0.5)]

/-- `baseMagnitudes[planetData.name] || 0`: the table lookup with fallback 0.
(Every table value is nonzero, so JavaScript's falsy-`||` equals this
missing-key fallback.) -/
def baseMagnitudeFor (nm : String) : ℚ :=
  match baseMagnitudes.find? (fun p => p.1 == nm) with
  | some p => p.2
  | none => 0

/-! ## Orchestration of `calculatePlanetPositions` -/

/-- The `Object.entries(this.planetData)` key order. -/
def planetKeys : List String := ["mercury", "venus", "mars", "jupiter", "saturn"]

/-- The `for`-loop of `calculatePlanetPositions` with the per-body call
abstracted as `f` and JavaScript exception propagation modeled by `Except`:
the loop fills slots in order and an exception aborts the whole loop,
discarding the locally built object. -/
def positionsLoop {ε α : Type} (f : String → Except ε α) :
    List String → Except ε (List (String × α))
  | [] => Except.ok []
  | k :: ks =>
    match f k with
    | Except.error e => Except.error e
    | Except.ok v =>
      match positionsLoop f ks with
      | Except.error e => Except.error e
      | Except.ok rest => Except.ok ((k, v) :: rest)

/-- `calculatePlanetPositions` as the loop over the five planet keys. -/
def calculatePlanetPositionsE {ε α : Type} (f : String → Except ε α) :
    Except ε (List (String × α)) :=
  positionsLoop f planetKeys

/-! ## Real-valued functions (`Math.sin` etc. are exact real functions here) -/

/-- `degToRad`: `degrees * Math.PI / 180`. -/
noncomputable def degToRad (degrees : ℝ) : ℝ := degrees * Real.pi / 180

/-- `radToDeg`: `radians * 180 / Math.PI`. -/
noncomputable def radToDeg (radians : ℝ) : ℝ := radians * 180 / Real.pi

/-- `Math.atan2 y x`, embedded as the complex argument of `x + y·i`
(range `(-π, π]`, `atan2 0 0 = 0`, matching JavaScript). -/
noncomputable def atan2 (y x : ℝ) : ℝ := Complex.arg (x + y * Complex.I)

/-- The `while (Math.abs(deltaE) > tolerance)` loop of `solveKeplerEquation`,
on the radian state `E` with the last correction `deltaE`, run for at most
`fuel` iterations (`none` = still running; the source loop is uncapped). -/
noncomputable def solveKeplerLoop (M e tol : ℝ) : ℕ → ℝ → ℝ → Option ℝ
  | 0, _, _ => none
  | Nat.succ fuel, E, deltaE =>
    if tol < |deltaE| then
      solveKeplerLoop M e tol fuel
        (E - (E - e * Real.sin E - M) / (1 - e * Real.cos E))
        ((E - e * Real.sin E - M) / (1 - e * Real.cos E))
    else some E

/-- `solveKeplerEquation(meanAnomaly, eccentricity)` with the default
tolerance `1e-6`: start at `E = degToRad meanAnomaly`, `deltaE = 1`,
and convert the loop's answer back to degrees. -/
noncomputable def solveKeplerEquation (fuel : ℕ) (meanAnomalyDeg eccentricity : ℝ) :
    Option ℝ :=
  Option.map radToDeg
    (solveKeplerLoop (degToRad meanAnomalyDeg) eccentricity 1e-6 fuel
      (degToRad meanAnomalyDeg) 1)

/-- `calculateTrueAnomaly(eccentricAnomaly, eccentricity)`:
`radToDeg (2 * atan2 (√(1+e)·sin(E_rad/2)) (√(1-e)·cos(E_rad/2)))`. -/
noncomputable def calculateTrueAnomaly (eccentricAnomaly eccentricity : ℝ) : ℝ :=
  radToDeg (2 * atan2
    (Real.sqrt (1 + eccentricity) * Real.sin (degToRad eccentricAnomaly / 2))
    (Real.sqrt (1 - eccentricity) * Real.cos (degToRad eccentricAnomaly / 2)))

/-- A geocentric ecliptic coordinate triple. -/
structure Vec3 where
  x : ℝ
  y : ℝ
  z : ℝ

/-- The `{ra, dec}` record returned by `eclipticToEquatorial`. -/
structure EquatorialCoords where
  ra : ℝ
  dec : ℝ

/-- The fixed obliquity `degToRad 23.4367` of `eclipticToEquatorial`. -/
noncomputable def obliquity : ℝ := degToRad 23.4367

/-- `eclipticToEquatorial(coords)`: rotate by the obliquity about x, then
`ra = radToDeg (atan2 y x) / 15` (hours), `dec = radToDeg (asin (z/|r|))`. -/
noncomputable def eclipticToEquatorial (c : Vec3) : EquatorialCoords :=
  let x := c.x
  let y := c.y * Real.cos obliquity - c.z * Real.sin obliquity
  let z := c.y * Real.sin obliquity + c.z * Real.cos obliquity
  { ra := radToDeg (atan2 y x) / 15
    dec := radToDeg (Real.arcsin (z / Real.sqrt (x * x + y * y + z * z))) }

/-- `calculateApparentMagnitude(planetData, heliocentricDistance,
geocentricDistance)`: table lookup by `planetData.name` plus
`5 * Math.log10 (heliocentric * geocentric)`. -/
noncomputable def calculateApparentMagnitude (p : PlanetData) (helio geo : ℝ) : ℝ :=
  (baseMagnitudeFor p.name : ℝ) + 5 * Real.logb 10 (helio * geo)

/-- `computeLocalSiderealTimeRadians(date, longitudeDeg)`: the normalized
LST in degrees, converted to radians. -/
noncomputable def computeLocalSiderealTimeRadians (t lon : ℚ) : ℝ :=
  degToRad (lstDegrees t lon)

/-- The zenith right ascension of `updateSkyOrientation`:
`THREE.MathUtils.radToDeg(lstRad)`. -/
noncomputable def zenithRaDeg (t lon : ℚ) : ℝ :=
  radToDeg (computeLocalSiderealTimeRadians t lon)

/-- The zenith declination of `updateSkyOrientation`: the observer latitude. -/
def zenithDecDeg (lat : ℚ) : ℚ := lat

/-! ## Helper lemmas -/

lemma jsRem_nonneg_of_nonneg {a n : ℚ} (hn : 0 < n) (ha : 0 ≤ a) :
    0 ≤ jsRem a n ∧ jsRem a n < n := by
  have hq : 0 ≤ a / n := div_nonneg ha hn.le
  have hne : n ≠ 0 := ne_of_gt hn
  unfold jsRem jsTrunc
  rw [if_pos hq]
  constructor
  · have h1 : (⌊a / n⌋ : ℚ) ≤ a / n := Int.floor_le (a / n)
    have h2 : n * (⌊a / n⌋ : ℚ) ≤ n * (a / n) :=
      mul_le_mul_of_nonneg_left h1 hn.le
    rw [mul_div_cancel₀ a hne] at h2
    linarith
  · have h1 : a / n < (⌊a / n⌋ : ℚ) + 1 := Int.lt_floor_add_one (a / n)
    have h2 : n * (a / n) < n * ((⌊a / n⌋ : ℚ) + 1) :=
      mul_lt_mul_of_pos_left h1 hn
    rw [mul_div_cancel₀ a hne] at h2
    linarith [mul_add n ((⌊a / n⌋ : ℚ)) 1]

lemma jsRem_nonpos_of_neg {a n : ℚ} (hn : 0 < n) (ha : a < 0) :
    -n < jsRem a n ∧ jsRem a n ≤ 0 := by
  have hq : ¬ 0 ≤ a / n := not_le.mpr (div_neg_of_neg_of_pos ha hn)
  have hne : n ≠ 0 := ne_of_gt hn
  unfold jsRem jsTrunc
  rw [if_neg hq]
  constructor
  · have h1 : (⌈a / n⌉ : ℚ) < a / n + 1 := Int.ceil_lt_add_one (a / n)
    have h2 : n * (⌈a / n⌉ : ℚ) < n * (a / n + 1) :=
      mul_lt_mul_of_pos_left h1 hn
    rw [mul_add, mul_div_cancel₀ a hne] at h2
    linarith
  · have h1 : a / n ≤ (⌈a / n⌉ : ℚ) := Int.le_ceil (a / n)
    have h2 : n * (a / n) ≤ n * (⌈a / n⌉ : ℚ) :=
      mul_le_mul_of_nonneg_left h1 hn.le
    rw [mul_div_cancel₀ a hne] at h2
    linarith

lemma jsRem_sub_self (a n : ℚ) : a - jsRem a n = n * (jsTrunc (a / n) : ℚ) := by
  unfold jsRem
  ring

lemma normalize360_mem (x : ℚ) :
    0 ≤ normalize360 x ∧ normalize360 x < 360 := by
  unfold normalize360
  have h360 : (0 : ℚ) < 360 := by norm_num
  have hr : 0 ≤ jsRem x 360 + 360 := by
    rcases le_or_lt 0 x with hx | hx
    · have := (jsRem_nonneg_of_nonneg h360 hx).1
      linarith
    · have := (jsRem_nonpos_of_neg h360 hx).1
      linarith
  exact jsRem_nonneg_of_nonneg h360 hr

lemma normalize360_congr (x : ℚ) :
    ∃ k : ℤ, x - normalize360 x = 360 * k := by
  unfold normalize360
  refine ⟨jsTrunc (x / 360) + jsTrunc ((jsRem x 360 + 360) / 360) - 1, ?_⟩
  have h1 := jsRem_sub_self x 360
  have h2 := jsRem_sub_self (jsRem x 360 + 360) 360
  push_cast
  linarith

lemma radToDeg_degToRad (x : ℝ) : radToDeg (degToRad x) = x := by
  unfold radToDeg degToRad
  field_simp

lemma degToRad_radToDeg (x : ℝ) : degToRad (radToDeg x) = x := by
  unfold radToDeg degToRad
  field_simp

/-! ## Claim theorems -/

/-- C8: at the epoch instant 2000-01-01T12:00:00 UTC the mean anomaly computed
by `calculatePlanetPosition` equals each body's tabulated `meanAnomalyAtEpoch`
exactly; in particular mercury's equals 174.8 degrees. -/
theorem meanAnomaly_at_epoch_exact :
    meanAnomaly mercury epochMillis = mercury.meanAnomalyAtEpoch
    ∧ meanAnomaly venus epochMillis = venus.meanAnomalyAtEpoch
    ∧ meanAnomaly mars epochMillis = mars.meanAnomalyAtEpoch
    ∧ meanAnomaly jupiter epochMillis = jupiter.meanAnomalyAtEpoch
    ∧ meanAnomaly saturn epochMillis = saturn.meanAnomalyAtEpoch
    ∧ meanAnomaly mercury epochMillis = 174.8 := by
  refine ⟨?_, ?_, ?_, ?_, ?_, ?_⟩ <;>
    norm_num [meanAnomaly, mercury, venus, mars, jupiter, saturn, epochMillis,
      daysSinceEpoch, jsRem, jsTrunc]

/-- C3 (the code violates it): at pre-epoch instants the JavaScript `%`
keeps the dividend's sign, so the mean anomaly is negative, not in
`[0,360)`.  Mercury 100 days before the epoch gets `-234.43`; the Earth
model 200 days before the epoch gets `-97.12`. -/
theorem meanAnomaly_negative_before_epoch :
    meanAnomaly mercury 938088000000 = -23443/100
    ∧ meanAnomaly mercury 938088000000 < 0
    ∧ earthMeanAnomaly 929448000000 = -2428/25
    ∧ earthMeanAnomaly 929448000000 < 0 := by
  have h1 : meanAnomaly mercury 938088000000 = -23443/100 := by
    norm_num [meanAnomaly, mercury, epochMillis, daysSinceEpoch, jsRem, jsTrunc]
  have h2 : earthMeanAnomaly 929448000000 = -2428/25 := by
    norm_num [earthMeanAnomaly, epochMillis, daysSinceEpoch, jsRem, jsTrunc]
  exact ⟨h1, by rw [h1]; norm_num, h2, by rw [h2]; norm_num⟩

/-- C9: the local sidereal time is the exact GMST polynomial plus the
longitude, normalized into `[0,360)` (equal to the raw value modulo 360),
and the observer zenith of `updateSkyOrientation` has right ascension equal
to the LST converted back to degrees and declination equal to the observer
latitude. -/
theorem localSiderealTime_spec (t lon lat : ℚ) :
    0 ≤ lstDegrees t lon ∧ lstDegrees t lon < 360
    ∧ (∃ k : ℤ, (gmstRaw t + lon) - (lstDegrees t lon : ℚ) = 360 * k)
    ∧ 0 ≤ gmstDegrees t ∧ gmstDegrees t < 360
    ∧ (∃ k : ℤ, gmstRaw t - gmstDegrees t = 360 * k)
    ∧ zenithRaDeg t lon = (lstDegrees t lon : ℝ)
    ∧ zenithDecDeg lat = lat := by
  obtain ⟨k₁, hk₁⟩ := normalize360_congr (gmstRaw t)
  obtain ⟨k₂, hk₂⟩ := normalize360_congr (gmstDegrees t + lon)
  refine ⟨(normalize360_mem _).1, (normalize360_mem _).2, ⟨k₁ + k₂, ?_⟩,
    (normalize360_mem _).1, (normalize360_mem _).2, ⟨k₁, hk₁⟩, ?_, rfl⟩
  · unfold lstDegrees
    unfold gmstDegrees at hk₂ ⊢
    push_cast
    linarith
  · unfold zenithRaDeg computeLocalSiderealTimeRadians
    exact radToDeg_degToRad _

/-- C10: every row of the bounds table has `0 ≤ raStart ≤ raEnd`, so the
wrap-around branch never fires and a negative right ascension matches no
box: `getConstellationFromCoords` returns the unknown-constellation
sentinel. -/
theorem getConstellation_neg_ra_unknown (ra dec : ℚ) (h : ra < 0) :
    getConstellationFromCoords ra dec = "未知星座" := by
  have key : ∀ c : ℚ, 0 ≤ c → decide (c ≤ ra) = false := by
    intro c hc
    exact decide_eq_false (fun hcr => absurd (hc.trans hcr) (not_le.mpr h))
  have hnone : constellationBounds.find? (fun b => boxContains b ra dec) = none := by
    apply List.find?_eq_none.mpr
    intro b hb
    simp only [constellationBounds, List.mem_cons, List.not_mem_nil, or_false] at hb
    rcases hb with rfl | rfl | rfl | rfl | rfl | rfl | rfl | rfl | rfl | rfl | rfl | rfl <;>
      norm_num [boxContains, inRABox, key]
  rw [getConstellationFromCoords, hnone]

/-- Witness for C10 at the concrete query `(ra, dec) = (-1, 0)`. -/
theorem getConstellation_neg_ra_unknown_witness :
    getConstellationFromCoords (-1) 0 = "未知星座" :=
  getConstellation_neg_ra_unknown (-1) 0 (by norm_num)

/-- C7 (the code violates it): the `for`-loop of `calculatePlanetPositions`
has no `try`/`catch`, so when the computation for mars fails the whole call
fails, and the already-computed mercury and venus results are discarded
instead of being reported per slot. -/
theorem calculatePlanetPositions_error_discards {ε α : Type}
    (f : String → Except ε α) (a b : α) (err : ε)
    (h1 : f "mercury" = Except.ok a) (h2 : f "venus" = Except.ok b)
    (h3 : f "mars" = Except.error err) :
    calculatePlanetPositionsE f = Except.error err := by
  simp [calculatePlanetPositionsE, planetKeys, positionsLoop, h1, h2, h3]

/-- Witness for C7: a concrete per-body computation where only mars fails. -/
theorem calculatePlanetPositions_error_discards_witness :
    calculatePlanetPositionsE
      (fun k => if k = "mars" then (Except.error () : Except Unit ℕ) else Except.ok 0)
      = Except.error () :=
  calculatePlanetPositions_error_discards
    (fun k => if k = "mars" then (Except.error () : Except Unit ℕ) else Except.ok 0)
    0 0 () rfl rfl rfl

/-- C6 (the code violates it): `calculateApparentMagnitude` looks up
`baseMagnitudes[planetData.name]`, but `name` holds the display name
`水星` while the table is keyed `mercury`, so the base magnitude is always
the fallback 0.  At unit distances the code returns 0 where the claim
predicts `-0.6 + 5·log₁₀(1·1) = -0.6`. -/
theorem magnitude_base_never_applied :
    calculateApparentMagnitude mercury 1 1 = 0
    ∧ baseMagnitudeFor mercury.name = 0
    ∧ ((-0.6 : ℝ) + 5 * Real.logb 10 (1 * 1) ≠ 0) := by
  have hbase : baseMagnitudeFor mercury.name = 0 := by decide
  refine ⟨?_, hbase, ?_⟩
  · unfold calculateApparentMagnitude
    rw [hbase]
    norm_num [Real.logb_one]
  · norm_num [Real.logb_one]

/-- C4 counterexample: at `E = -90` degrees, `e = 0`, the true anomaly
returned by `calculateTrueAnomaly` is `-90`, which is not in `[0,360)`:
the function does not normalize its result. -/
theorem trueAnomaly_not_normalized :
    calculateTrueAnomaly (-90) 0 = -90 ∧ ¬ (0 ≤ calculateTrueAnomaly (-90) 0) := by
  have hpi := Real.pi_pos
  have h2 : degToRad (-90) / 2 = -(Real.pi / 4) := by
    unfold degToRad; ring
  have hmem : -(Real.pi / 4) ∈ Set.Ioc (-Real.pi) Real.pi :=
    ⟨by linarith, by linarith⟩
  have h1 : calculateTrueAnomaly (-90) 0 = -90 := by
    unfold calculateTrueAnomaly atan2
    rw [h2]
    have e1 : (1:ℝ) + 0 = 1 := by norm_num
    have e2 : (1:ℝ) - 0 = 1 := by norm_num
    rw [e1, e2, Real.sqrt_one, one_mul, one_mul, Complex.ofReal_cos,
      Complex.ofReal_sin, Complex.arg_cos_add_sin_mul_I hmem]
    unfold radToDeg
    rw [div_eq_iff (ne_of_gt hpi)]
    ring
  exact ⟨h1, by rw [h1]; norm_num⟩

/-- C4 amended: for every eccentric anomaly `E` (degrees) and `e ∈ [0,1)`,
`calculateTrueAnomaly` returns `2·atan2(√(1+e)·sin(E/2), √(1-e)·cos(E/2))`
in degrees, lying in `(-360, 360]` (the doubled `atan2` range), with no
normalization to `[0,360)`. -/
theorem trueAnomaly_range (E ecc : ℝ) (h0 : 0 ≤ ecc) (h1 : ecc < 1) :
    -360 < calculateTrueAnomaly E ecc ∧ calculateTrueAnomaly E ecc ≤ 360 := by
  have hpi := Real.pi_pos
  unfold calculateTrueAnomaly atan2 radToDeg
  set a := Complex.arg (↑(Real.sqrt (1 - ecc) * Real.cos (degToRad E / 2)) +
    ↑(Real.sqrt (1 + ecc) * Real.sin (degToRad E / 2)) * Complex.I) with ha
  have hl : -Real.pi < a := Complex.neg_pi_lt_arg _
  have hu : a ≤ Real.pi := Complex.arg_le_pi _
  constructor
  · rw [lt_div_iff₀ hpi]
    nlinarith
  · rw [div_le_iff₀ hpi]
    nlinarith

/-- Witness for the amended C4 at `E = 0`, `e = 0`. -/
theorem trueAnomaly_range_witness :
    -360 < calculateTrueAnomaly 0 0 ∧ calculateTrueAnomaly 0 0 ≤ 360 :=
  trueAnomaly_range 0 0 le_rfl (by norm_num)

lemma obliquity_pos : 0 < obliquity := by
  unfold obliquity degToRad
  positivity

lemma obliquity_lt_pi : obliquity < Real.pi := by
  unfold obliquity degToRad
  nlinarith [Real.pi_pos]

/-- C5 counterexample: the geocentric triple `(1, 0, 1)` has nonzero norm,
yet the right ascension returned by `eclipticToEquatorial` is negative:
`atan2` is not normalized to `[0,2π)` before the division by 15. -/
theorem eclipticToEquatorial_ra_negative :
    (Vec3.mk 1 0 1 ≠ Vec3.mk 0 0 0)
    ∧ (eclipticToEquatorial (Vec3.mk 1 0 1)).ra < 0 := by
  constructor
  · intro hc
    injection hc with hx hy hz
    exact one_ne_zero hx
  · have hsin : 0 < Real.sin obliquity :=
      Real.sin_pos_of_pos_of_lt_pi obliquity_pos obliquity_lt_pi
    unfold eclipticToEquatorial
    dsimp only
    have hy : (0:ℝ) * Real.cos obliquity - 1 * Real.sin obliquity
        = -Real.sin obliquity := by ring
    rw [hy]
    have harg : atan2 (-Real.sin obliquity) 1 < 0 := by
      unfold atan2
      apply Complex.arg_neg_iff.mpr
      simpa using hsin
    have h180 : atan2 (-Real.sin obliquity) 1 * 180 / Real.pi < 0 :=
      div_neg_of_neg_of_pos (by nlinarith) Real.pi_pos
    unfold radToDeg
    exact div_neg_of_neg_of_pos h180 (by norm_num)

/-- C5 amended: for every geocentric triple the `ra` field of
`eclipticToEquatorial` lies in `(-12, 12]` hours — `atan2`'s `(-π, π]`
range divided by 15 degrees per hour, with no normalization to
`[0,24)`. -/
theorem eclipticToEquatorial_ra_range (c : Vec3) :
    -12 < (eclipticToEquatorial c).ra ∧ (eclipticToEquatorial c).ra ≤ 12 := by
  have hpi := Real.pi_pos
  unfold eclipticToEquatorial atan2 radToDeg
  dsimp only
  set a := Complex.arg (↑c.x +
    ↑(c.y * Real.cos obliquity - c.z * Real.sin obliquity) * Complex.I) with ha
  have hl : -Real.pi < a := Complex.neg_pi_lt_arg _
  have hu : a ≤ Real.pi := Complex.arg_le_pi _
  constructor
  · rw [lt_div_iff₀ (by norm_num : (0:ℝ) < 15), lt_div_iff₀ hpi]
    nlinarith
  · rw [div_le_iff₀ (by norm_num : (0:ℝ) < 15), div_le_iff₀ hpi]
    nlinarith

lemma abs_sin_sub_self {x : ℝ} (hx : |x| ≤ 1) : |Real.sin x - x| ≤ x ^ 2 / 4 := by
  rcases lt_trichotomy x 0 with hneg | rfl | hpos
  · have hx1 : -x ≤ 1 := by
      rw [abs_of_neg hneg] at hx
      exact hx
    have hA : Real.sin (-x) ≤ -x := Real.sin_le (by linarith)
    have hB : -x - (-x) ^ 3 / 4 < Real.sin (-x) := Real.sin_gt_sub_cube (by linarith) hx1
    rw [Real.sin_neg] at hA hB
    rw [abs_le]
    constructor <;> nlinarith
  · simp
  · have hx1 : x ≤ 1 := by
      rw [abs_of_pos hpos] at hx
      exact hx
    have hA : Real.sin x ≤ x := Real.sin_le hpos.le
    have hB : x - x ^ 3 / 4 < Real.sin x := Real.sin_gt_sub_cube hpos hx1
    rw [abs_le]
    constructor <;> nlinarith

lemma kepler_step_residual (M e E δ : ℝ) (he0 : 0 ≤ e) (he : e ≤ 9/10)
    (hδ : |δ| ≤ 1e-6)
    (hδdef : δ = (E - e * Real.sin E - M) / (1 - e * Real.cos E)) :
    |(E - δ) - e * Real.sin (E - δ) - M| < 1e-6 := by
  have hcos1 : Real.cos E ≤ 1 := Real.cos_le_one E
  have hcos1' : -1 ≤ Real.cos E := Real.neg_one_le_cos E
  have hfp : (0:ℝ) < 1 - e * Real.cos E := by nlinarith
  have hfE : E - e * Real.sin E - M = δ * (1 - e * Real.cos E) := by
    rw [hδdef, div_mul_cancel₀ _ (ne_of_gt hfp)]
  have hsin : Real.sin (E - δ) = Real.sin E * Real.cos δ - Real.cos E * Real.sin δ :=
    Real.sin_sub E δ
  have hres : (E - δ) - e * Real.sin (E - δ) - M
      = e * (Real.sin E * (1 - Real.cos δ) + Real.cos E * (Real.sin δ - δ)) := by
    rw [hsin]
    linear_combination hfE
  have hcosδ : 1 - Real.cos δ ≤ δ ^ 2 / 2 := by
    nlinarith [Real.one_sub_sq_div_two_le_cos (x := δ)]
  have hcosδ0 : 0 ≤ 1 - Real.cos δ := by nlinarith [Real.cos_le_one δ]
  have hsinδ : |Real.sin δ - δ| ≤ δ ^ 2 / 4 := abs_sin_sub_self (by linarith [hδ])
  have hδ2 : δ ^ 2 ≤ 1e-12 := by
    have h1 : |δ| ^ 2 ≤ (1e-6 : ℝ) ^ 2 := by
      have := pow_le_pow_left₀ (abs_nonneg δ) hδ 2
      exact this
    rw [sq_abs] at h1
    nlinarith
  have habs : |(E - δ) - e * Real.sin (E - δ) - M|
      ≤ e * ((1 - Real.cos δ) + |Real.sin δ - δ|) := by
    rw [hres, abs_mul, abs_of_nonneg he0]
    have h1 : |Real.sin E * (1 - Real.cos δ) + Real.cos E * (Real.sin δ - δ)|
        ≤ |Real.sin E * (1 - Real.cos δ)| + |Real.cos E * (Real.sin δ - δ)| :=
      abs_add _ _
    have h2 : |Real.sin E * (1 - Real.cos δ)| ≤ 1 - Real.cos δ := by
      rw [abs_mul, abs_of_nonneg hcosδ0]
      nlinarith [Real.abs_sin_le_one E, abs_nonneg (Real.sin E)]
    have h3 : |Real.cos E * (Real.sin δ - δ)| ≤ |Real.sin δ - δ| := by
      rw [abs_mul]
      nlinarith [Real.abs_cos_le_one E, abs_nonneg (Real.cos E),
        abs_nonneg (Real.sin δ - δ)]
    have := le_trans h1 (add_le_add h2 h3)
    exact mul_le_mul_of_nonneg_left this he0
  have hsum : (1 - Real.cos δ) + |Real.sin δ - δ| ≤ 3 / 4 * 1e-12 := by
    nlinarith
  have hfin : e * ((1 - Real.cos δ) + |Real.sin δ - δ|) < 1e-6 := by
    have h4 : e * ((1 - Real.cos δ) + |Real.sin δ - δ|) ≤ 9/10 * (3/4 * 1e-12) := by
      apply mul_le_mul he hsum (by positivity) (by norm_num)
    nlinarith
  linarith [habs, hfin]

lemma kepler_loop_sound (M e : ℝ) (he0 : 0 ≤ e) (he : e ≤ 9/10) :
    ∀ fuel E δ R,
      (|δ| ≤ 1e-6 → |E - e * Real.sin E - M| < 1e-6) →
      solveKeplerLoop M e 1e-6 fuel E δ = some R →
      |R - e * Real.sin R - M| < 1e-6 := by
  intro fuel
  induction fuel with
  | zero =>
    intro E δ R hinv h
    simp [solveKeplerLoop] at h
  | succ n ih =>
    intro E δ R hinv h
    simp only [solveKeplerLoop] at h
    split_ifs at h with hc
    · exact ih _ _ R
        (fun hsmall => kepler_step_residual M e E _ he0 he hsmall rfl) h
    · have hER : E = R := Option.some.inj h
      rw [← hER]
      exact hinv (le_of_not_lt hc)

/-- C2: whenever the Newton loop of `solveKeplerEquation` returns a value
for an eccentricity `e ∈ [0,0.9)` and a mean anomaly `M ∈ [0,360)` degrees,
the returned eccentric anomaly (taken in radians) satisfies the Kepler
residual bound `|E - e·sin E - M| < 1e-6` radians.  The unbounded source
loop is modeled with a fuel parameter; `some` is exactly a run in which the
loop exited by its own `|deltaE| ≤ tolerance` test. -/
theorem solveKepler_residual_bound (fuel : ℕ) (M e Eout : ℝ)
    (he0 : 0 ≤ e) (he : e < 0.9) (hM0 : 0 ≤ M) (hM1 : M < 360)
    (h : solveKeplerEquation fuel M e = some Eout) :
    |degToRad Eout - e * Real.sin (degToRad Eout) - degToRad M| < 1e-6 := by
  have he' : e ≤ 9 / 10 := by
    norm_num at he
    linarith
  unfold solveKeplerEquation at h
  obtain ⟨R, hR, hE⟩ := Option.map_eq_some'.mp h
  rw [← hE, degToRad_radToDeg]
  exact kepler_loop_sound (degToRad M) e he0 he' fuel (degToRad M) 1 R
    (fun habs => absurd habs (by norm_num)) hR

/-- Witness for C2: at `M = 0`, `e = 0` the loop returns `E = 0` within two
iterations, and the residual bound holds there. -/
theorem solveKepler_residual_bound_witness :
    |degToRad 0 - 0 * Real.sin (degToRad 0) - degToRad 0| < 1e-6 :=
  solveKepler_residual_bound 2 0 0 0 le_rfl (by norm_num) le_rfl (by norm_num)
    (by norm_num [solveKeplerEquation, solveKeplerLoop, degToRad, radToDeg])

end StarObserver
